import Mathlib

/-!
Shallow embedding of `pythonnet/__init__.py` (the pythonnet loader glue
layer): runtime-spec resolution, environment-derived parameters, and the
process-wide loader state machine (`set_runtime` / `load` / `unload`).

The foreign pieces (`clr_loader` runtime constructors, assembly loading,
and the managed `Initialize` / `Shutdown` entry points) are opaque
collaborators: runtime construction is modelled by recording the flavor
and the parameter mapping passed to the flavor-specific constructor, and
the integer status returned by each foreign entry-point call is an
explicit argument of the operation that performs the call.  Each public
operation returns the resulting global state, an optional raised error
(Python exceptions abort the operation but leave prior mutations of the
globals in place, so the state is returned even on error), and the list
of foreign entry-point invocations it performed.
-/

namespace Pythonnet

/-- The process environment, as an association list of variable names to
values (distinct names). -/
abbrev Env := List (String × String)

/-- A keyword-parameter mapping (`**params` in the Python source). -/
abbrev ParamMap := List (String × String)

/-- Model of a `clr_loader` runtime handle: records which flavor-specific
constructor produced it and the parameter mapping that was passed. -/
structure Runtime where
  flavor : String
  params : ParamMap
deriving DecidableEq, Repr

/-- Model of a `clr_loader.wrappers.Assembly`: records the path it was
loaded from. -/
structure Assembly where
  dll_path : String
deriving DecidableEq, Repr

/-- `Union[clr_loader.Runtime, str]`: either an already constructed
runtime handle or a flavor token. -/
inductive RuntimeSpec where
  | handle (r : Runtime)
  | name (s : String)
deriving DecidableEq, Repr

/-- The `RuntimeError`s raised by the module, one constructor per raise
site, carrying the data interpolated into the message. -/
inductive PyErr where
  | alreadyLoaded (r : Option Runtime)
  | invalidRuntimeName (s : String)
  | noValidRuntime
  | initFailed
  | shutdownFailed
deriving DecidableEq, Repr

/-- The module-level global state: `_RUNTIME`, `_LOADER_ASSEMBLY`,
`_LOADED`, with the initial values `None`, `None`, `False`. -/
structure PNState where
  _RUNTIME : Option Runtime
  _LOADER_ASSEMBLY : Option Assembly
  _LOADED : Bool
deriving DecidableEq, Repr

/-- The initial module state: nothing selected, nothing loaded. -/
def initState : PNState := ⟨none, none, false⟩

/-- Foreign calls performed by an operation, with the argument passed. -/
inductive Event where
  | initInvoked (arg : String)
  | shutdownInvoked (arg : String)
  | atexitRegistered
deriving DecidableEq, Repr

/-- Result of running a public operation: final global state, the raised
error if any, and the foreign calls performed. -/
structure StepResult where
  state : PNState
  err : Option PyErr
  events : List Event
deriving DecidableEq, Repr

/-- `environ.get(k)`: exact-name lookup in the environment. -/
def envGet (env : Env) (k : String) : Option String :=
  (env.find? fun kv => kv.1 = k).map fun kv => kv.2

/-- The `spec == "default"` resolution step of `_create_runtime_from_spec`:
on `win32` the flavor is `netfx`; otherwise `environ.get("PYTHONNET_RUNTIME",
"mono")`.  A non-default token passes through unchanged. -/
def resolve_spec (platform : String) (env : Env) (spec : String) : String :=
  if spec = "default" then
    if platform = "win32" then "netfx"
    else (envGet env "PYTHONNET_RUNTIME").getD "mono"
  else spec

/-- `str.upper()`: character-wise upper-casing (the names involved are
ASCII, where Python's `str.upper` is exactly character-wise
`Char.toUpper`). -/
def py_upper (s : String) : String := ⟨s.data.map Char.toUpper⟩

/-- `str.lower()`: character-wise lower-casing. -/
def py_lower (s : String) : String := ⟨s.data.map Char.toLower⟩

/-- `len(s)`: the number of code points of `s`. -/
def py_len (s : String) : Nat := s.data.length

/-- `s[n:]`: drop the first `n` code points of `s`. -/
def py_drop (s : String) (n : Nat) : String := ⟨s.data.drop n⟩

/-- Whether the first list starts with the second. -/
def charsStartWith : List Char → List Char → Bool
  | _, [] => true
  | [], _ :: _ => false
  | c :: cs, d :: ds => c = d && charsStartWith cs ds

/-- `s.startswith(pat)`. -/
def py_startswith (s pat : String) : Bool := charsStartWith s.data pat.data

/-- `_get_params_from_env(prefix)`: environment variables whose name,
upper-cased, starts with `PYTHONNET_<PREFIX>_`; each key is the original
name with that many leading characters dropped and the rest lower-cased,
each value unchanged. -/
def _get_params_from_env (env : Env) (pfx : String) : ParamMap :=
  let full_pfx := "PYTHONNET_" ++ py_upper pfx ++ "_"
  let len_ := py_len full_pfx
  (env.filter fun kv => py_startswith (py_upper kv.1) full_pfx).map
    fun kv => (py_lower (py_drop kv.1 len_), kv.2)

/-- `_create_runtime_from_spec(spec, params)`: resolve `"default"`, fall
back to environment-derived parameters when `params` is `None` or empty
(`params = params or _get_params_from_env(spec)` tests truthiness), then
dispatch on the flavor token; an unrecognized token raises
`RuntimeError(f"Invalid runtime name: '{spec}'")`. -/
def _create_runtime_from_spec (platform : String) (env : Env) (spec : String)
    (params : Option ParamMap) : Except PyErr Runtime :=
  let spec := resolve_spec platform env spec
  let params :=
    match params with
    | some ps => if ps.isEmpty then _get_params_from_env env spec else ps
    | none => _get_params_from_env env spec
  if spec = "netfx" then Except.ok ⟨"netfx", params⟩
  else if spec = "mono" then Except.ok ⟨"mono", params⟩
  else if spec = "coreclr" then Except.ok ⟨"coreclr", params⟩
  else Except.error (PyErr.invalidRuntimeName spec)

/-- `set_runtime(runtime, **params)`: raises `AlreadyLoaded` (naming the
current `_RUNTIME`) when `_LOADED` is true; otherwise creates the runtime
from a string spec (or takes the handle as given) and stores it in
`_RUNTIME`.  On error the globals are unchanged, so an `Except` result
suffices. -/
def set_runtime (platform : String) (env : Env) (st : PNState)
    (runtime : RuntimeSpec) (params : ParamMap) : Except PyErr PNState :=
  if st._LOADED then Except.error (PyErr.alreadyLoaded st._RUNTIME)
  else
    match runtime with
    | RuntimeSpec.name s =>
      match _create_runtime_from_spec platform env s (some params) with
      | Except.ok r => Except.ok { st with _RUNTIME := some r }
      | Except.error e => Except.error e
    | RuntimeSpec.handle r => Except.ok { st with _RUNTIME := some r }

/-- The companion-module path `Path(__file__).parent / "runtime" /
"Python.Runtime.dll"`, an installation-relative constant. -/
def dll_path : String := "pythonnet/runtime/Python.Runtime.dll"

/-- `Runtime.get_assembly(path)`: loading the companion module into the
runtime, modelled as always producing an assembly handle for that path
(failures of the underlying loader are opaque and out of scope). -/
def Runtime.get_assembly (_r : Runtime) (path : String) : Assembly := ⟨path⟩

/-- `load(runtime="default", **params)`: early-returns when `_LOADED` is
true; selects a runtime via `set_runtime` when `_RUNTIME` is `None`
(propagating its errors); assigns `_LOADER_ASSEMBLY` from
`get_assembly(dll_path)`; invokes the `Python.Runtime.Loader.Initialize`
entry point with an empty byte-string (its integer status is the
`initRet` argument here); a non-zero status raises after
`_LOADER_ASSEMBLY` was already assigned; on zero, registers `unload` with
`atexit`.  Note the source never assigns `_LOADED = True`. -/
def load (platform : String) (env : Env) (initRet : Int) (st : PNState)
    (runtime : RuntimeSpec) (params : ParamMap) : StepResult :=
  if st._LOADED then ⟨st, none, []⟩
  else
    let sel : Except PyErr PNState :=
      match st._RUNTIME with
      | none => set_runtime platform env st runtime params
      | some _ => Except.ok st
    match sel with
    | Except.error e => ⟨st, some e, []⟩
    | Except.ok st1 =>
      match st1._RUNTIME with
      | none => ⟨st1, some PyErr.noValidRuntime, []⟩
      | some r =>
        let st2 := { st1 with _LOADER_ASSEMBLY := some (r.get_assembly dll_path) }
        if initRet ≠ 0 then ⟨st2, some PyErr.initFailed, [Event.initInvoked ""]⟩
        else ⟨st2, none, [Event.initInvoked "", Event.atexitRegistered]⟩

/-- `unload()`: when `_LOADER_ASSEMBLY` is set, invokes the
`Python.Runtime.Loader.Shutdown` entry point with `b"full_shutdown"`
(status `shutdownRet` here); a non-zero status raises before anything is
cleared; on zero, clears `_LOADER_ASSEMBLY` and then `_RUNTIME`.  When no
assembly is set it only clears `_RUNTIME` (a no-op if already `None`). -/
def unload (shutdownRet : Int) (st : PNState) : StepResult :=
  match st._LOADER_ASSEMBLY with
  | some _ =>
    if shutdownRet ≠ 0 then
      ⟨st, some PyErr.shutdownFailed, [Event.shutdownInvoked "full_shutdown"]⟩
    else
      ⟨⟨none, none, st._LOADED⟩, none, [Event.shutdownInvoked "full_shutdown"]⟩
  | none => ⟨{ st with _RUNTIME := none }, none, []⟩

end Pythonnet

namespace Pythonnet

/-! ## Helper lemmas -/

/-- A successful `set_runtime` only replaces `_RUNTIME`. -/
theorem set_runtime_ok_runtime (platform : String) (env : Env) (st st1 : PNState)
    (rs : RuntimeSpec) (ps : ParamMap)
    (h : set_runtime platform env st rs ps = Except.ok st1) :
    ∃ r, st1 = { st with _RUNTIME := some r } := by
  unfold set_runtime at h
  split at h
  · simp at h
  · split at h
    · split at h
      · injection h with h
        exact ⟨_, h.symm⟩
      · simp at h
    · injection h with h
      exact ⟨_, h.symm⟩

/-- Unfolding of `load` from the initial state (not loaded, no runtime
selected): it runs `set_runtime` and proceeds from its result. -/
theorem load_initState_eq (platform : String) (env : Env) (initRet : Int)
    (spec : RuntimeSpec) (params : ParamMap) :
    load platform env initRet initState spec params =
      match set_runtime platform env initState spec params with
      | Except.error e => ⟨initState, some e, []⟩
      | Except.ok st1 =>
        match st1._RUNTIME with
        | none => ⟨st1, some PyErr.noValidRuntime, []⟩
        | some r =>
          if initRet ≠ 0 then
            ⟨{ st1 with _LOADER_ASSEMBLY := some (r.get_assembly dll_path) },
              some PyErr.initFailed, [Event.initInvoked ""]⟩
          else
            ⟨{ st1 with _LOADER_ASSEMBLY := some (r.get_assembly dll_path) },
              none, [Event.initInvoked "", Event.atexitRegistered]⟩ := rfl

/-- A `load` from the initial state that raises no error selected some
runtime, loaded the companion assembly, invoked Initialize once, and
registered the exit hook; `_LOADED` is still `false`. -/
theorem load_initState_ok (platform : String) (env : Env) (spec : RuntimeSpec)
    (params : ParamMap)
    (h : (load platform env 0 initState spec params).err = none) :
    ∃ r, load platform env 0 initState spec params =
      ⟨⟨some r, some ⟨dll_path⟩, false⟩, none,
        [Event.initInvoked "", Event.atexitRegistered]⟩ := by
  rw [load_initState_eq] at h ⊢
  cases hsel : set_runtime platform env initState spec params with
  | error e => rw [hsel] at h; simp at h
  | ok st1 =>
    obtain ⟨r, hr⟩ := set_runtime_ok_runtime platform env initState st1 spec params hsel
    subst hr
    exact ⟨r, rfl⟩

end Pythonnet

namespace Pythonnet

/-! ## Claim theorems -/

/-- Claim C1 (code divergence): the source never assigns `_LOADED = True`
(`load` declares `global _LOADED` but contains no assignment), so after a
first `load()` succeeds on a fresh state, a second `load()` is NOT a
no-op: it invokes the Initialize entry point again (and re-registers the
exit hook), contradicting the claim that Initialize runs exactly once per
cycle.  Concretely, on `win32` with an empty environment and Initialize
returning 0: the first `load` succeeds, `_LOADED` is still `false`, and
the second `load` performs the Initialize call again. -/
theorem c1_second_load_invokes_init_again :
    (load "win32" [] 0 initState (RuntimeSpec.name "default") []).err = none ∧
    (load "win32" [] 0 initState (RuntimeSpec.name "default") []).state._LOADED = false ∧
    (load "win32" [] 0 (load "win32" [] 0 initState (RuntimeSpec.name "default") []).state
        (RuntimeSpec.name "default") []).events
      = [Event.initInvoked "", Event.atexitRegistered] :=
  ⟨rfl, rfl, rfl⟩

/-- Claim C2 (code divergence): because `_LOADED` is never assigned
`True`, `set_runtime` called after a successful `load()` does NOT raise
`AlreadyLoaded`; it silently replaces the stored runtime handle.
Concretely, after a successful `load` on `win32`, `set_runtime("mono")`
returns successfully with the runtime overwritten by the Mono handle
(the claim requires an `AlreadyLoaded` failure here). -/
theorem c2_set_runtime_after_load_not_rejected :
    set_runtime "win32" [] (load "win32" [] 0 initState (RuntimeSpec.name "default") []).state
        (RuntimeSpec.name "mono") []
      = Except.ok ⟨some ⟨"mono", []⟩, some ⟨dll_path⟩, false⟩ :=
  rfl

/-- Claim C3, counterexample: a `load()` on a fresh state in which
Initialize returns 1 (non-zero) raises `InitializationFailed`, yet the
module handle `_LOADER_ASSEMBLY` IS set afterwards — the source assigns
`_LOADER_ASSEMBLY` before checking Initialize's return value — refuting
"after a load() in which Initialize returns non-zero, no ModuleHandle
exists". -/
theorem c3_module_handle_survives_init_failure :
    (load "win32" [] 1 initState (RuntimeSpec.name "default") []).err
        = some PyErr.initFailed ∧
    (load "win32" [] 1 initState (RuntimeSpec.name "default") []).state._LOADER_ASSEMBLY
        = some ⟨dll_path⟩ :=
  ⟨rfl, rfl⟩

/-- Claim C3 as amended: in any state with a runtime selected and not
loaded, a `load()` in which Initialize returns non-zero raises
`InitializationFailed` and leaves `_LOADED` false and the runtime handle
selected, but the module handle EXISTS afterwards: `_LOADER_ASSEMBLY` is
assigned from `get_assembly` before Initialize's return value is checked,
so the ModuleHandle tracks the assembly having been loaded, not
Initialize having succeeded. -/
theorem c3_init_failure_state (platform : String) (env : Env) (st : PNState)
    (r : Runtime) (ret : Int) (rs : RuntimeSpec) (ps : ParamMap)
    (hl : st._LOADED = false) (hr : st._RUNTIME = some r) (hret : ret ≠ 0) :
    (load platform env ret st rs ps).err = some PyErr.initFailed ∧
    (load platform env ret st rs ps).state._LOADER_ASSEMBLY
        = some (r.get_assembly dll_path) ∧
    (load platform env ret st rs ps).state._RUNTIME = some r ∧
    (load platform env ret st rs ps).state._LOADED = false ∧
    (load platform env ret st rs ps).events = [Event.initInvoked ""] := by
  simp [load, hl, hr, hret]

/-- Witness for the amended C3 at a concrete input: runtime Mono already
selected, Initialize returns 1. -/
theorem c3_init_failure_state_witness :
    (load "linux" [] 1 (⟨some ⟨"mono", []⟩, none, false⟩ : PNState)
        (RuntimeSpec.name "default") []).err = some PyErr.initFailed ∧
    (load "linux" [] 1 (⟨some ⟨"mono", []⟩, none, false⟩ : PNState)
        (RuntimeSpec.name "default") []).state._LOADER_ASSEMBLY
      = some (Runtime.get_assembly ⟨"mono", []⟩ dll_path) ∧
    (load "linux" [] 1 (⟨some ⟨"mono", []⟩, none, false⟩ : PNState)
        (RuntimeSpec.name "default") []).state._RUNTIME = some ⟨"mono", []⟩ ∧
    (load "linux" [] 1 (⟨some ⟨"mono", []⟩, none, false⟩ : PNState)
        (RuntimeSpec.name "default") []).state._LOADED = false ∧
    (load "linux" [] 1 (⟨some ⟨"mono", []⟩, none, false⟩ : PNState)
        (RuntimeSpec.name "default") []).events = [Event.initInvoked ""] :=
  c3_init_failure_state "linux" [] ⟨some ⟨"mono", []⟩, none, false⟩ ⟨"mono", []⟩ 1
    (RuntimeSpec.name "default") [] rfl rfl (by decide)

/-- Claim C9: `unload()` in a state with no module handle and no runtime
handle is a safe no-op: no error is raised, no foreign call is made, and
the state is unchanged. -/
theorem c9_unload_nothing_loaded_noop (st : PNState) (ret : Int)
    (h1 : st._LOADER_ASSEMBLY = none) (h2 : st._RUNTIME = none) :
    unload ret st = ⟨st, none, []⟩ := by
  have hst : st = ⟨none, none, st._LOADED⟩ := by
    cases st
    simp_all
  rw [hst]
  rfl

/-- Witness for C9 at the initial state with Shutdown status 5. -/
theorem c9_unload_nothing_loaded_noop_witness :
    unload 5 initState = ⟨initState, none, []⟩ :=
  c9_unload_nothing_loaded_noop initState 5 rfl rfl

/-- Claim C10: an explicitly empty parameter mapping behaves exactly like
an absent one — `params = params or _get_params_from_env(spec)` tests
truthiness, and an empty mapping is falsy, so it is discarded in favour
of the environment-derived parameters. -/
theorem c10_empty_params_same_as_none (platform : String) (env : Env) (spec : String) :
    _create_runtime_from_spec platform env spec (some []) =
      _create_runtime_from_spec platform env spec none :=
  rfl

end Pythonnet

namespace Pythonnet

/-- Claim C4: resolution of the `"default"` flavor token — on `win32` it
resolves to `netfx`; on any other platform it resolves to the value of
the `PYTHONNET_RUNTIME` environment variable, and to `mono` when that
variable is unset. -/
theorem c4_default_resolution (platform : String) (env : Env) :
    resolve_spec "win32" env "default" = "netfx" ∧
    (platform ≠ "win32" → ∀ v, envGet env "PYTHONNET_RUNTIME" = some v →
      resolve_spec platform env "default" = v) ∧
    (platform ≠ "win32" → envGet env "PYTHONNET_RUNTIME" = none →
      resolve_spec platform env "default" = "mono") := by
  refine ⟨rfl, ?_, ?_⟩
  · intro hp v hv
    simp [resolve_spec, hp, hv]
  · intro hp hv
    simp [resolve_spec, hp, hv]

/-- Witness for C4: a Linux host with `PYTHONNET_RUNTIME=coreclr`
resolves to `coreclr`; a Linux host with an empty environment resolves to
`mono`; Windows resolves to `netfx`. -/
theorem c4_default_resolution_witness :
    resolve_spec "linux" [("PYTHONNET_RUNTIME", "coreclr")] "default" = "coreclr" ∧
    resolve_spec "linux" [] "default" = "mono" ∧
    resolve_spec "win32" [] "default" = "netfx" :=
  ⟨(c4_default_resolution "linux" [("PYTHONNET_RUNTIME", "coreclr")]).2.1
      (by decide) "coreclr" rfl,
   (c4_default_resolution "linux" []).2.2 (by decide) rfl,
   (c4_default_resolution "linux" []).1⟩

/-- Claim C5: with no explicit parameters, the mapping passed to the
flavor-specific constructor is exactly the environment variables whose
name case-insensitively starts with `PYTHONNET_<FLAVOR>_`, each key the
variable name with the prefix stripped and lower-cased, each value
unchanged; and `_create_runtime_from_spec` with `params = None` passes
exactly that mapping to the constructor of the named flavor. -/
theorem c5_env_derived_params (platform flavor : String) (env : Env)
    (hfl : flavor = "netfx" ∨ flavor = "mono" ∨ flavor = "coreclr") :
    (∀ k v, (k, v) ∈ _get_params_from_env env flavor ↔
      ∃ k0, (k0, v) ∈ env ∧
        py_startswith (py_upper k0) ("PYTHONNET_" ++ py_upper flavor ++ "_") = true ∧
        k = py_lower (py_drop k0 (py_len ("PYTHONNET_" ++ py_upper flavor ++ "_")))) ∧
    ∃ r, _create_runtime_from_spec platform env flavor none = Except.ok r ∧
      r.flavor = flavor ∧ r.params = _get_params_from_env env flavor := by
  constructor
  · intro k v
    simp only [_get_params_from_env, List.mem_map, List.mem_filter, Prod.exists,
      Prod.mk.injEq]
    constructor
    · rintro ⟨k0, v0, ⟨hmem, hpfx⟩, hk, hv⟩
      subst hv
      exact ⟨k0, hmem, hpfx, hk.symm⟩
    · rintro ⟨k0, hmem, hpfx, hk⟩
      exact ⟨k0, v, ⟨hmem, hpfx⟩, hk.symm, rfl⟩
  · rcases hfl with h | h | h <;> subst h <;> exact ⟨_, rfl, rfl, rfl⟩

/-- Witness for C5: `PYTHONNET_CORECLR_RUNTIME_CONFIG=/tmp/x.json` with
flavor `coreclr` yields the mapping entry `runtime_config ↦ /tmp/x.json`,
and creating the coreclr runtime with no explicit params passes the
environment-derived mapping. -/
theorem c5_env_derived_params_witness :
    ("runtime_config", "/tmp/x.json") ∈
      _get_params_from_env [("PYTHONNET_CORECLR_RUNTIME_CONFIG", "/tmp/x.json")] "coreclr" ∧
    ∃ r, _create_runtime_from_spec "linux"
        [("PYTHONNET_CORECLR_RUNTIME_CONFIG", "/tmp/x.json")] "coreclr" none
        = Except.ok r ∧ r.flavor = "coreclr" ∧
      r.params = _get_params_from_env
        [("PYTHONNET_CORECLR_RUNTIME_CONFIG", "/tmp/x.json")] "coreclr" :=
  ⟨((c5_env_derived_params "linux" "coreclr"
        [("PYTHONNET_CORECLR_RUNTIME_CONFIG", "/tmp/x.json")]
        (Or.inr (Or.inr rfl))).1 "runtime_config" "/tmp/x.json").mpr
      ⟨"PYTHONNET_CORECLR_RUNTIME_CONFIG", by decide, by decide, by decide⟩,
   (c5_env_derived_params "linux" "coreclr"
      [("PYTHONNET_CORECLR_RUNTIME_CONFIG", "/tmp/x.json")]
      (Or.inr (Or.inr rfl))).2⟩

/-- Claim C6: when a module is loaded, `unload()` invokes Shutdown with
exactly the argument `"full_shutdown"`; a non-zero Shutdown status raises
`ShutdownFailed` and leaves the whole state (module reference included)
in place; a zero status clears the module reference and releases the
runtime handle. -/
theorem c6_unload_shutdown (st : PNState) (asm : Assembly) (ret : Int)
    (h : st._LOADER_ASSEMBLY = some asm) :
    (unload ret st).events = [Event.shutdownInvoked "full_shutdown"] ∧
    (ret ≠ 0 → (unload ret st).err = some PyErr.shutdownFailed ∧
      (unload ret st).state = st) ∧
    (ret = 0 → (unload ret st).err = none ∧
      (unload ret st).state._LOADER_ASSEMBLY = none ∧
      (unload ret st).state._RUNTIME = none) := by
  unfold unload
  rw [h]
  by_cases hret : ret = 0
  · subst hret
    simp
  · simp [hret]

/-- Witness for C6 at concrete inputs: a loaded state, one `unload` with
Shutdown status 0 and one with status 3. -/
theorem c6_unload_shutdown_witness :
    ((unload 0 (⟨some ⟨"mono", []⟩, some ⟨dll_path⟩, false⟩ : PNState)).err = none ∧
      (unload 0 (⟨some ⟨"mono", []⟩, some ⟨dll_path⟩, false⟩ : PNState)).state._LOADER_ASSEMBLY
          = none ∧
      (unload 0 (⟨some ⟨"mono", []⟩, some ⟨dll_path⟩, false⟩ : PNState)).state._RUNTIME
          = none) ∧
    ((unload 3 (⟨some ⟨"mono", []⟩, some ⟨dll_path⟩, false⟩ : PNState)).err
          = some PyErr.shutdownFailed ∧
      (unload 3 (⟨some ⟨"mono", []⟩, some ⟨dll_path⟩, false⟩ : PNState)).state
          = ⟨some ⟨"mono", []⟩, some ⟨dll_path⟩, false⟩) :=
  ⟨(c6_unload_shutdown ⟨some ⟨"mono", []⟩, some ⟨dll_path⟩, false⟩ ⟨dll_path⟩ 0 rfl).2.2
      rfl,
   (c6_unload_shutdown ⟨some ⟨"mono", []⟩, some ⟨dll_path⟩, false⟩ ⟨dll_path⟩ 3 rfl).2.1
      (by decide)⟩

/-- Claim C7: any flavor token other than `netfx`, `mono`, `coreclr` and
`default` makes `_create_runtime_from_spec` fail with the invalid-runtime
error carrying the offending token itself (the token is interpolated into
the raised message). -/
theorem c7_invalid_runtime_name (platform : String) (env : Env) (s : String)
    (params : Option ParamMap)
    (h1 : s ≠ "netfx") (h2 : s ≠ "mono") (h3 : s ≠ "coreclr") (h4 : s ≠ "default") :
    _create_runtime_from_spec platform env s params
      = Except.error (PyErr.invalidRuntimeName s) := by
  cases params <;>
    simp [_create_runtime_from_spec, resolve_spec, h1, h2, h3, h4]

/-- Witness for C7: the token `"bogus"` is rejected and named in the
error. -/
theorem c7_invalid_runtime_name_witness :
    _create_runtime_from_spec "linux" [] "bogus" none
      = Except.error (PyErr.invalidRuntimeName "bogus") :=
  c7_invalid_runtime_name "linux" [] "bogus" none
    (by decide) (by decide) (by decide) (by decide)

/-- Claim C8: round trip.  From the initial state, a successful `load()`
invokes Initialize once; `unload()` with Shutdown status 0 succeeds and
returns the state exactly to the initial one (no runtime handle, no
module handle); a subsequent `load()` with the same arguments succeeds
again and re-invokes Initialize. -/
theorem c8_load_unload_load_round_trip (platform : String) (env : Env)
    (spec : RuntimeSpec) (params : ParamMap)
    (h : (load platform env 0 initState spec params).err = none) :
    (load platform env 0 initState spec params).events
        = [Event.initInvoked "", Event.atexitRegistered] ∧
    (unload 0 (load platform env 0 initState spec params).state).err = none ∧
    (unload 0 (load platform env 0 initState spec params).state).state = initState ∧
    (load platform env 0 (unload 0 (load platform env 0 initState spec params).state).state
        spec params).err = none ∧
    (load platform env 0 (unload 0 (load platform env 0 initState spec params).state).state
        spec params).events = [Event.initInvoked "", Event.atexitRegistered] := by
  obtain ⟨r, hload⟩ := load_initState_ok platform env spec params h
  have hun : unload 0 (load platform env 0 initState spec params).state
      = ⟨initState, none, [Event.shutdownInvoked "full_shutdown"]⟩ := by
    rw [hload]
    rfl
  refine ⟨by rw [hload], by rw [hun], by rw [hun], ?_, ?_⟩
  · rw [hun]
    exact h
  · rw [hun, hload]

/-- Witness for C8 at a concrete input: `win32`, empty environment,
default spec, Initialize returning 0 both times. -/
theorem c8_load_unload_load_round_trip_witness :
    (load "win32" [] 0 initState (RuntimeSpec.name "default") []).events
        = [Event.initInvoked "", Event.atexitRegistered] ∧
    (unload 0 (load "win32" [] 0 initState (RuntimeSpec.name "default") []).state).err
        = none ∧
    (unload 0 (load "win32" [] 0 initState (RuntimeSpec.name "default") []).state).state
        = initState ∧
    (load "win32" [] 0
        (unload 0 (load "win32" [] 0 initState (RuntimeSpec.name "default") []).state).state
        (RuntimeSpec.name "default") []).err = none ∧
    (load "win32" [] 0
        (unload 0 (load "win32" [] 0 initState (RuntimeSpec.name "default") []).state).state
        (RuntimeSpec.name "default") []).events
      = [Event.initInvoked "", Event.atexitRegistered] :=
  c8_load_unload_load_round_trip "win32" [] (RuntimeSpec.name "default") [] rfl

end Pythonnet
